import Mathlib

/-!
Verification of the Versiful backend's Entitlement & Usage Ledger.

Shallow embedding of the Python source:
  * `src/lambdas/sms/helpers.py`       — usage store operations
  * `src/lambdas/sms/sms_handler.py`   — quota evaluator, nudge throttler, SMS handler
  * `src/lambdas/stripe_webhook/webhook_handler.py` — subscription reconciler
  * `src/lambdas/sms/twilio_callback_handler.py` and
    `src/lambdas/shared/sms_operations.py`          — cost reconciler

DynamoDB items are modelled as records with `Option` fields (an absent
attribute is `none`); `if_not_exists` and conditional writes are translated
field by field.  Wall-clock time (`datetime.now`) and the current period key
are explicit parameters.  External effects (Twilio sends, chat invocation,
Stripe calls) are recorded in an effect list.
-/

namespace Versiful

/-- `FREE_MONTHLY_LIMIT` from `helpers.py` (default of the env var, `5`). -/
def FREE_MONTHLY_LIMIT : Int := 5

/-- `NUDGE_LIMIT` from `helpers.py` (default of the env var, `3`). -/
def NUDGE_LIMIT : Nat := 3

/-- A row of the `sms-usage` DynamoDB table, keyed by phone number.
Fields are optional because a Dynamo item can lack any attribute. -/
structure UsageRecord where
  periodKey : Option String
  plan_messages_sent : Option Nat
  nudges_sent : Option Nat
  userId : Option String
  posthogAnonymousId : Option String
  createdAt : Option String
  plan_message_last_updated : Option String
  updatedAt : Option String
deriving Repr, DecidableEq

/-- The item created implicitly when an update targets a missing key. -/
def emptyUsage : UsageRecord :=
  ⟨none, none, none, none, none, none, none, none⟩

/-- `userId = if_not_exists(userId, :userId)` applied only when a user id
was passed (both `ensure_sms_usage_record` and `consume_message_if_allowed`
append this clause conditionally). -/
def applyUserIdIfAbsent (uid : Option String) (r : UsageRecord) : UsageRecord :=
  match uid with
  | none => r
  | some u => { r with userId := some (r.userId.getD u) }

/-- `attribute_not_exists(plan_messages_sent) OR plan_messages_sent < :limit`. -/
def countOk : Option Nat → Int → Bool
  | none, _ => true
  | some c, limit => decide ((c : Int) < limit)

/-- `attribute_not_exists(periodKey) OR periodKey = :period`. -/
def periodOk : Option String → String → Bool
  | none, _ => true
  | some pk, period => pk == period

/-- The `ConditionExpression` of `consume_message_if_allowed`; on a missing
item both `attribute_not_exists` clauses hold. -/
def consumeCond (st : Option UsageRecord) (limit : Int) (period : String) : Bool :=
  match st with
  | none => true
  | some r => countOk r.plan_messages_sent limit && periodOk r.periodKey period

/-- `consume_message_if_allowed` from `helpers.py`: a single conditional
update that increments `plan_messages_sent` (treating a missing counter as
0) and stamps `periodKey`, guarded by `consumeCond`.  Returns
`(result, new store state)`: `result = some updated` on success, `none`
when the conditional check failed (in which case the store is untouched). -/
def consume_message_if_allowed (limit : Int) (uid : Option String)
    (now period : String) (st : Option UsageRecord) :
    Option UsageRecord × Option UsageRecord :=
  if consumeCond st limit period then
    let r := st.getD emptyUsage
    let r' := applyUserIdIfAbsent uid
      { r with plan_messages_sent := some (r.plan_messages_sent.getD 0 + 1),
               periodKey := some period,
               plan_message_last_updated := some now,
               updatedAt := some now }
    (some r', some r')
  else (none, st)

/-- `M` back-to-back consume attempts against the same usage row (any
interleaving of concurrent attempts is some sequential order of the atomic
conditional writes).  Returns (number of successes, final store state). -/
def consumeRun (limit : Int) (uid : Option String) (now period : String) :
    Nat → Option UsageRecord → Nat × Option UsageRecord
  | 0, st => (0, st)
  | Nat.succ m, st =>
      let step := consume_message_if_allowed limit uid now period st
      let rest := consumeRun limit uid now period m step.2
      ((if step.1.isSome then 1 else 0) + rest.1, rest.2)

/-- A row of the users DynamoDB table (also the Entitlement record),
keyed by `userId`; the key attribute is always present on an item. -/
structure UserRecord where
  userId : String
  phoneNumber : Option String
  optedOut : Option Bool
  optedOutAt : Option String
  isSubscribed : Option Bool
  plan : Option String
  plan_monthly_cap : Option Int
  subscriptionStatus : Option String
  cancelAtPeriodEnd : Option Bool
  currentPeriodEnd : Option Int
  stripeCustomerId : Option String
  stripeSubscriptionId : Option String
  updatedAt : Option String
deriving Repr, DecidableEq

/-- Python truthiness of `item.get(field)` for a boolean attribute:
a missing attribute reads as `False`. -/
def truthy (b : Option Bool) : Bool := b.getD false

/-- Python truthiness of `item.get(field)` for a string attribute:
both a missing attribute and the empty string are falsy. -/
def pyTruthyStr : Option String → Bool
  | none => false
  | some s => !(s == "")

/-- `get_user_by_id` from `helpers.py`: `users_table.get_item` by key. -/
def get_user_by_id (users : List UserRecord) (uid : String) : Option UserRecord :=
  users.find? (fun u => u.userId == uid)

/-- `users_table.scan(FilterExpression=Attr("phoneNumber").eq(phone))`
followed by `response["Items"][0]`: first matching row. -/
def scan_user_by_phone (users : List UserRecord) (phone : String) :
    Option UserRecord :=
  users.find? (fun u => u.phoneNumber == some phone)

/-- `users_table.update_item` keyed by `userId` (the callers below only
update keys found by a prior scan, so the item exists). -/
def update_user (users : List UserRecord) (uid : String)
    (f : UserRecord → UserRecord) : List UserRecord :=
  users.map (fun u => if u.userId == uid then f u else u)

/-- `ensure_sms_usage_record` from `helpers.py`: an `if_not_exists` update
that fills missing period/counter/timestamp attributes without incrementing
anything, and returns `ALL_NEW`. -/
def ensure_sms_usage_record (uid : Option String) (now period : String)
    (st : Option UsageRecord) : UsageRecord :=
  let r := st.getD emptyUsage
  applyUserIdIfAbsent uid
    { r with periodKey := some (r.periodKey.getD period),
             plan_messages_sent := some (r.plan_messages_sent.getD 0),
             nudges_sent := some (r.nudges_sent.getD 0),
             createdAt := some (r.createdAt.getD now),
             updatedAt := some now }

/-- `reset_sms_usage_period` from `helpers.py`: zero the monthly counters
and stamp the new period unless the in-memory record already carries the
current period.  Returns `(record, new store state)`. -/
def reset_sms_usage_period (now period : String) (r : UsageRecord)
    (st : Option UsageRecord) : UsageRecord × Option UsageRecord :=
  if r.periodKey == some period then (r, st)
  else
    let base := st.getD emptyUsage
    let r' := { base with periodKey := some period,
                          plan_messages_sent := some 0,
                          nudges_sent := some 0,
                          plan_message_last_updated := some now,
                          updatedAt := some now }
    (r', some r')

/-- `get_sms_usage` from `helpers.py`: fetch, create when missing, reset
when the stored period differs from the current one, then backfill the
user id when it was supplied and the record has none. -/
def get_sms_usage (uid : Option String) (now period : String)
    (st : Option UsageRecord) : UsageRecord × Option UsageRecord :=
  let first :=
    match st with
    | none =>
        let r := ensure_sms_usage_record uid now period st
        (r, some r)
    | some r0 =>
        if r0.periodKey == some period then (r0, st)
        else reset_sms_usage_period now period r0 st
  match uid with
  | some _ =>
      if first.1.userId.isNone then
        let r := ensure_sms_usage_record uid now period first.2
        (r, some r)
      else first
  | none => first

/-- `increment_nudge` from `helpers.py`. -/
def increment_nudge (now : String) (st : Option UsageRecord) :
    Option UsageRecord :=
  let r := st.getD emptyUsage
  some { r with nudges_sent := some (r.nudges_sent.getD 0 + 1),
                updatedAt := some now }

/-- The two tables the SMS handler touches, restricted to one phone
number on the usage side. -/
structure SmsState where
  usage : Option UsageRecord
  users : List UserRecord
deriving Repr, DecidableEq

/-- The dict returned by `_evaluate_usage` in `sms_handler.py`. -/
structure Decision where
  allowed : Bool
  limit : Option Int
  usage : UsageRecord
  user_profile : Option UserRecord
  reason : String
deriving Repr, DecidableEq

/-- `user_profile = get_user_by_id(user_id) if user_id else None`. -/
def resolve_user_profile (users : List UserRecord) (usage : UsageRecord) :
    Option UserRecord :=
  match usage.userId with
  | some u => get_user_by_id users u
  | none => none

/-- The tail of `_evaluate_usage` once an effective limit is fixed:
attempt the conditional consume; on failure re-read and deny. -/
def evalConsume (limit : Int) (uid : Option String) (prof : Option UserRecord)
    (now period : String) (u1 : Option UsageRecord) (users : List UserRecord) :
    Decision × SmsState :=
  let step := consume_message_if_allowed limit uid now period u1
  match step.1 with
  | some updated => (⟨true, some limit, updated, prof, "within_cap"⟩, ⟨step.2, users⟩)
  | none =>
      let rd := get_sms_usage uid now period step.2
      (⟨false, some limit, rd.1, prof, "quota_exceeded"⟩, ⟨rd.2, users⟩)

/-- `_evaluate_usage` from `sms_handler.py`: the centralized usage gate. -/
def evaluate_usage (now period : String) (st : SmsState) : Decision × SmsState :=
  let gr := get_sms_usage none now period st.usage
  let usage := gr.1
  let u1 := gr.2
  let uid := usage.userId
  let prof := resolve_user_profile st.users usage
  match prof with
  | some p =>
      if truthy p.isSubscribed then
        (⟨true, none, usage, some p, "subscribed"⟩, ⟨u1, st.users⟩)
      else
        match p.plan_monthly_cap with
        | some l =>
            if l = -1 then
              (⟨true, none, usage, some p, "unlimited_cap"⟩, ⟨u1, st.users⟩)
            else evalConsume l uid (some p) now period u1 st.users
        | none => evalConsume FREE_MONTHLY_LIMIT uid (some p) now period u1 st.users
  | none => evalConsume FREE_MONTHLY_LIMIT uid none now period u1 st.users

/-- `_should_nudge` from `sms_handler.py`. -/
def should_nudge (usage : UsageRecord) : Bool :=
  usage.nudges_sent.getD 0 < NUDGE_LIMIT

/-- `decision["limit"] or FREE_MONTHLY_LIMIT`: Python `or` replaces both
`None` and the falsy integer `0`. -/
def pyOrLimit : Option Int → Int
  | none => FREE_MONTHLY_LIMIT
  | some l => if l = 0 then FREE_MONTHLY_LIMIT else l

/-- Externally visible actions of the SMS handler: outbound Twilio sends
(one constructor per distinct message the code sends), the chat-Lambda
invocation, and the Stripe cancellation call. -/
inductive Effect where
  | smsOptOutConfirm
  | smsCancellation
  | smsWelcomeNoUser
  | smsWelcomeBack
  | smsHelp
  | smsFirstTimeWelcome
  | smsQuotaExhausted (periodKey : String) (limit : Int)
  | smsChatReply
  | smsChatError
  | invokeChat (message : String)
  | stripeCancel (subscriptionId : String)
deriving Repr, DecidableEq

inductive KeywordType where
  | stop
  | start
  | help
deriving Repr, DecidableEq

/-- Python `str.strip()`: drop leading and trailing whitespace. -/
def pyStrip (s : String) : String :=
  String.mk
    (((s.toList.dropWhile Char.isWhitespace).reverse.dropWhile
        Char.isWhitespace).reverse)

/-- Python `str.upper()` on the ASCII range the keywords use. -/
def pyUpper (s : String) : String :=
  String.mk (s.toList.map Char.toUpper)

/-- Digit run to a natural number. -/
def natOfDigits (cs : List Char) : Nat :=
  cs.foldl (fun a c => a * 10 + (c.toNat - 48)) 0

def allDigits (cs : List Char) : Bool := cs.all (fun c => c.isDigit)

/-- Python `int(s)` on a decimal string: optional surrounding whitespace,
optional sign, at least one digit; anything else raises (`none`). -/
def pyInt? (s : String) : Option Int :=
  let t := (pyStrip s).toList
  match t with
  | '-' :: ds =>
      if !ds.isEmpty && allDigits ds then some (-(natOfDigits ds : Int))
      else none
  | '+' :: ds =>
      if !ds.isEmpty && allDigits ds then some ((natOfDigits ds : Nat) : Int)
      else none
  | ds =>
      if !ds.isEmpty && allDigits ds then some ((natOfDigits ds : Nat) : Int)
      else none

def stopKeywords : List String :=
  ["STOP", "STOPALL", "UNSUBSCRIBE", "CANCEL", "END", "QUIT"]

def startKeywords : List String := ["START", "UNSTOP"]

def helpKeywords : List String := ["HELP", "INFO"]

/-- `_is_keyword_command` from `sms_handler.py`: empty body is not a
keyword; otherwise the body is stripped, upper-cased and matched. -/
def is_keyword_command (body : String) : Option KeywordType :=
  if body == "" then none
  else
    let normalized := pyUpper (pyStrip body)
    if stopKeywords.contains normalized then some KeywordType.stop
    else if startKeywords.contains normalized then some KeywordType.start
    else if helpKeywords.contains normalized then some KeywordType.help
    else none

/-- `_handle_stop_keyword`: find the user by phone, cancel any Stripe
subscription, overwrite the entitlement to opted-out free tier (removing
`currentPeriodEnd`), and send a confirmation. -/
def handle_stop_keyword (phone now : String) (users : List UserRecord) :
    List UserRecord × List Effect :=
  match scan_user_by_phone users phone with
  | none => (users, [Effect.smsOptOutConfirm])
  | some user =>
      let hasSub := truthy user.isSubscribed
      let stripeEff :=
        if hasSub && pyTruthyStr user.stripeSubscriptionId then
          [Effect.stripeCancel (user.stripeSubscriptionId.getD "")]
        else []
      let users' := update_user users user.userId (fun u =>
        { u with isSubscribed := some false,
                 plan := some "free",
                 plan_monthly_cap := some 5,
                 subscriptionStatus := some "canceled",
                 cancelAtPeriodEnd := some false,
                 optedOut := some true,
                 optedOutAt := some now,
                 updatedAt := some now,
                 currentPeriodEnd := none })
      (users', stripeEff ++
        [if hasSub then Effect.smsCancellation else Effect.smsOptOutConfirm])

/-- `_handle_start_keyword`: opt the user back in. -/
def handle_start_keyword (phone now : String) (users : List UserRecord) :
    List UserRecord × List Effect :=
  match scan_user_by_phone users phone with
  | none => (users, [Effect.smsWelcomeNoUser])
  | some user =>
      let users' := update_user users user.userId (fun u =>
        { u with optedOut := some false,
                 optedOutAt := none,
                 updatedAt := some now })
      (users', [Effect.smsWelcomeBack])

/-- `_get_or_create_posthog_id`: reuse the stored anonymous id, else store
a freshly generated one (the generated UUID is a parameter here). -/
def get_or_create_posthog_id (uuid now period : String)
    (st : Option UsageRecord) : String × Option UsageRecord :=
  let gr := get_sms_usage none now period st
  if pyTruthyStr gr.1.posthogAnonymousId then
    (gr.1.posthogAnonymousId.getD "", gr.2)
  else
    let r := gr.2.getD emptyUsage
    (uuid, some { r with posthogAnonymousId := some uuid,
                         updatedAt := some now })

/-- `_identify_sms_user`: registered users use their user id; otherwise
the anonymous-id path runs (the PostHog call itself is external). -/
def identify_sms_user (uuid now period : String) (userId : Option String)
    (profile : Option UserRecord) (st : Option UsageRecord) :
    String × Option UsageRecord :=
  match userId, profile with
  | some uid, some _ => (uid, st)
  | _, _ => get_or_create_posthog_id uuid now period st

/-- Result of one SMS handler invocation: HTTP status, the two tables
afterwards, and the externally visible effects in order. -/
structure HandlerOutcome where
  statusCode : Nat
  state : SmsState
  effects : List Effect
deriving Repr, DecidableEq

/-- The denial branch of `handler` (`sms_handler.py` lines 617-625):
nudge only while `_should_nudge` holds, then acknowledge with 200. -/
def handle_denied (now period : String) (d : Decision) (st1 : SmsState)
    (eff0 : List Effect) : HandlerOutcome :=
  if should_nudge d.usage then
    ⟨200, ⟨increment_nudge now st1.usage, st1.users⟩,
      eff0 ++ [Effect.smsQuotaExhausted (d.usage.periodKey.getD period)
                 (pyOrLimit d.limit)]⟩
  else ⟨200, st1, eff0⟩

/-- The main branch of `handler` after the keyword and opt-out gates:
first-time welcome, usage evaluation, then either the denial branch or
PostHog identification plus the chat invocation (`chatOk` is the success
flag of the chat Lambda's response). -/
def handler_main (body uuid now period : String) (chatOk : Bool)
    (st : SmsState) : HandlerOutcome :=
  let eff0 := if st.usage.isNone then [Effect.smsFirstTimeWelcome] else []
  let ev := evaluate_usage now period st
  let d := ev.1
  let st1 := ev.2
  if !d.allowed then handle_denied now period d st1 eff0
  else
    let userId := match d.user_profile with
      | some p => some p.userId
      | none => none
    let idr := identify_sms_user uuid now period userId d.user_profile st1.usage
    let st2 : SmsState := ⟨idr.2, st1.users⟩
    if chatOk then
      ⟨200, st2, eff0 ++ [Effect.invokeChat body, Effect.smsChatReply]⟩
    else
      ⟨500, st2, eff0 ++ [Effect.invokeChat body, Effect.smsChatError]⟩

/-- `handler` from `sms_handler.py` for a request whose body is present
and whose sender's number normalized successfully: keyword commands are
dispatched first, then the opt-out gate, then `handler_main`. -/
def sms_handler (phone body uuid now period : String) (chatOk : Bool)
    (st : SmsState) : HandlerOutcome :=
  match is_keyword_command body with
  | some KeywordType.stop =>
      let r := handle_stop_keyword phone now st.users
      ⟨200, ⟨st.usage, r.1⟩, r.2⟩
  | some KeywordType.start =>
      let r := handle_start_keyword phone now st.users
      ⟨200, ⟨st.usage, r.1⟩, r.2⟩
  | some KeywordType.help => ⟨200, st, [Effect.smsHelp]⟩
  | none =>
      match scan_user_by_phone st.users phone with
      | some user =>
          if truthy user.optedOut then ⟨200, st, []⟩
          else handler_main body uuid now period chatOk st
      | none => handler_main body uuid now period chatOk st

/-- Run the SMS handler over a list of inbound bodies from one sender,
threading the store state. -/
def run_messages (phone uuid now period : String) (chatOk : Bool) :
    List String → SmsState → List HandlerOutcome × SmsState
  | [], st => ([], st)
  | b :: bs, st =>
      let out := sms_handler phone b uuid now period chatOk st
      let rest := run_messages phone uuid now period chatOk bs out.state
      (out :: rest.1, rest.2)

/-- The fields of a Stripe subscription object that
`webhook_handler.py` reads: customer id, status, the billing interval of
the first item's price, the first item's `current_period_end`, and the
cancellation flags. -/
structure SubscriptionSnapshot where
  customer : String
  status : String
  interval : String
  current_period_end : Option Int
  cancel_at_period_end : Bool
  cancel_at : Option Int
deriving Repr, DecidableEq

/-- `plan = "monthly" if plan_interval == "month" else "annual"`. -/
def planOfInterval (interval : String) : String :=
  if interval == "month" then "monthly" else "annual"

/-- `subscription["status"] in ["active", "trialing"]`. -/
def isActiveStatus (s : String) : Bool := s == "active" || s == "trialing"

/-- The write of `handle_subscription_updated` applied to the resolved
user's record (the wall clock `now` feeds `updatedAt`).  `currentPeriodEnd`
is written only when the snapshot carries a truthy `current_period_end`;
every other written field is computed from the snapshot alone. -/
def apply_subscription_updated (sub : SubscriptionSnapshot) (now : String)
    (u : UserRecord) : UserRecord :=
  let isCanceling := sub.cancel_at_period_end || sub.cancel_at.isSome
  let base := { u with
    subscriptionStatus := some sub.status,
    plan := some (planOfInterval sub.interval),
    plan_monthly_cap := some (if isActiveStatus sub.status then -1 else 5),
    cancelAtPeriodEnd := some isCanceling,
    isSubscribed := some (isActiveStatus sub.status),
    updatedAt := some now }
  match sub.current_period_end with
  | some pe => if pe = 0 then base else { base with currentPeriodEnd := some pe }
  | none => base

/-- The write of `handle_subscription_deleted` applied to the resolved
user's record: revert to the free tier and `REMOVE currentPeriodEnd`. -/
def apply_subscription_deleted (now : String) (u : UserRecord) : UserRecord :=
  { u with isSubscribed := some false,
           plan := some "free",
           plan_monthly_cap := some 5,
           subscriptionStatus := some "canceled",
           cancelAtPeriodEnd := some false,
           updatedAt := some now,
           currentPeriodEnd := none }

/-- The write of `handle_payment_failed` applied to the resolved user's
record, where `liveStatus` is the status of the re-fetched live
subscription (`stripe.Subscription.retrieve(...)["status"]`). -/
def apply_payment_failed (liveStatus now : String) (u : UserRecord) :
    UserRecord :=
  { u with subscriptionStatus := some liveStatus,
           isSubscribed := some (liveStatus == "past_due"),
           plan_monthly_cap := some (if liveStatus == "past_due" then -1 else 5),
           updatedAt := some now }

/-- Python `float(s)` restricted to the decimal literals Twilio sends for
prices (optional sign, digits, optional point and fraction digits);
anything else is a `ValueError`, i.e. `none`.  The value is kept in exact
scaled-decimal form `(mantissa, fractionDigits)`, meaning
`mantissa / 10 ^ fractionDigits`. -/
def pyFloat? (s : String) : Option (Int × Nat) :=
  let t := (pyStrip s).toList
  let signAndRest : Int × List Char :=
    match t with
    | '-' :: cs => (-1, cs)
    | '+' :: cs => (1, cs)
    | cs => (1, cs)
  let sgn := signAndRest.1
  let rest := signAndRest.2
  let ip := rest.takeWhile (fun c => !(c == '.'))
  let rest2 := rest.dropWhile (fun c => !(c == '.'))
  match rest2 with
  | [] =>
      if !ip.isEmpty && allDigits ip then
        some (sgn * (natOfDigits ip : Int), 0)
      else none
  | _ :: fp =>
      if allDigits ip && allDigits fp && (!ip.isEmpty || !fp.isEmpty) then
        some (sgn * ((natOfDigits ip : Int) * (10 : Int) ^ fp.length +
          (natOfDigits fp : Int)), fp.length)
      else none

/-- The `costs.twilio` map written by `update_sms_cost` (price in the
scaled-decimal form produced by `pyFloat?`). -/
structure TwilioCost where
  price : Int × Nat
  priceUnit : String
  status : Option String
  numSegments : Int
  timestamp : String
deriving Repr, DecidableEq

/-- A row of the chat-messages table (the message ledger), keyed by
`(threadId, timestamp)` with a GSI on the unique `messageId`. -/
structure LedgerEntry where
  threadId : String
  timestamp : String
  messageId : String
  costsTwilio : Option TwilioCost
  updatedAt : Option String
deriving Repr, DecidableEq

/-- `update_sms_cost` from `sms_operations.py`: look the message up by
`messageId` on the GSI (`Limit=1`); on a miss log and return `False`
without touching the table; otherwise overwrite `costs.twilio` in place
on the row with that primary key. -/
def update_sms_cost (messageId : String) (price : Int × Nat) (priceUnit : String)
    (status : Option String) (numSegments : Int) (now : String)
    (ledger : List LedgerEntry) : Bool × List LedgerEntry :=
  match ledger.find? (fun m => m.messageId == messageId) with
  | none => (false, ledger)
  | some m =>
      let cost : TwilioCost := ⟨price, priceUnit, status, numSegments, now⟩
      (true, ledger.map (fun e =>
        if e.threadId == m.threadId && e.timestamp == m.timestamp then
          { e with costsTwilio := some cost, updatedAt := some now }
        else e))

/-- The parameters `twilio_callback_handler.handler` extracts from the
parsed callback body. -/
structure TwilioCallbackParams where
  messageSid : Option String
  messageStatus : Option String
  price : Option String
  priceUnit : Option String
  numSegments : Option String
  messageUuid : Option String
deriving Repr, DecidableEq

/-- `handler` from `twilio_callback_handler.py` (body already parsed):
a failed `int(NumSegments)` raises and lands in the outer `except` (500);
a missing/empty `MessageSid` is a 400; a missing/empty price is
acknowledged pending; an unparsable price is a 400; a missing `MessageUuid`
is acknowledged; otherwise `update_sms_cost` decides between 200 and 500. -/
def twilio_callback_handler (now : String) (p : TwilioCallbackParams)
    (ledger : List LedgerEntry) : Nat × List LedgerEntry :=
  match pyInt? (p.numSegments.getD "1") with
  | none => (500, ledger)
  | some numSegments =>
      if !pyTruthyStr p.messageSid then (400, ledger)
      else if p.price == none || p.price == some "" then (200, ledger)
      else
        match pyFloat? (p.price.getD "") with
        | none => (400, ledger)
        | some priceVal =>
            if !pyTruthyStr p.messageUuid then (200, ledger)
            else
              let r := update_sms_cost (p.messageUuid.getD "") priceVal
                (p.priceUnit.getD "USD") p.messageStatus numSegments now ledger
              if r.1 then (200, r.2) else (500, r.2)

/-- A usage row holding only a period key and the two counters
(witness fixture). -/
def usageAt (pk : String) (c n : Nat) : UsageRecord :=
  { emptyUsage with
    periodKey := some pk,
    plan_messages_sent := some c,
    nudges_sent := some n }

/-- A user record with every optional attribute absent (witness fixture). -/
def baseUser : UserRecord :=
  { userId := "u1", phoneNumber := none, optedOut := none, optedOutAt := none,
    isSubscribed := none, plan := none, plan_monthly_cap := none,
    subscriptionStatus := none, cancelAtPeriodEnd := none,
    currentPeriodEnd := none, stripeCustomerId := none,
    stripeSubscriptionId := none, updatedAt := none }

lemma consume_step_success (limit : Int) (uid : Option String)
    (now period : String) (r : UsageRecord) (c : Nat)
    (hc : r.plan_messages_sent = some c) (hp : r.periodKey = some period)
    (hlt : (c : Int) < limit) :
    ∃ r', consume_message_if_allowed limit uid now period (some r) = (some r', some r') ∧
      r'.plan_messages_sent = some (c + 1) ∧ r'.periodKey = some period := by
  have hcond : consumeCond (some r) limit period = true := by
    simp [consumeCond, countOk, periodOk, hc, hp, hlt]
  refine ⟨applyUserIdIfAbsent uid
      { r with plan_messages_sent := some (r.plan_messages_sent.getD 0 + 1),
               periodKey := some period,
               plan_message_last_updated := some now,
               updatedAt := some now }, ?_, ?_, ?_⟩
  · simp [consume_message_if_allowed, hcond]
  · cases uid <;> simp [applyUserIdIfAbsent, hc]
  · cases uid <;> simp [applyUserIdIfAbsent]

lemma consume_step_denied (limit : Int) (uid : Option String)
    (now period : String) (r : UsageRecord) (c : Nat)
    (hc : r.plan_messages_sent = some c)
    (hlt : ¬ (c : Int) < limit) :
    consume_message_if_allowed limit uid now period (some r) = (none, some r) := by
  have hcond : consumeCond (some r) limit period = false := by
    simp [consumeCond, countOk, hc, hlt]
  simp [consume_message_if_allowed, hcond]

lemma consumeRun_spec (limit : Int) (uid : Option String) (now period : String) :
    ∀ (M : Nat) (r : UsageRecord) (c : Nat),
      r.plan_messages_sent = some c → r.periodKey = some period →
      ∃ r', consumeRun limit uid now period M (some r) =
              (min M (limit - c).toNat, some r') ∧
        r'.plan_messages_sent = some (c + min M (limit - c).toNat) ∧
        r'.periodKey = some period := by
  intro M
  induction M with
  | zero =>
      intro r c hc hp
      exact ⟨r, by simp [consumeRun], by simp [hc], hp⟩
  | succ m ih =>
      intro r c hc hp
      by_cases hlt : (c : Int) < limit
      · obtain ⟨r1, hstep, hc1, hp1⟩ :=
          consume_step_success limit uid now period r c hc hp hlt
        obtain ⟨r', hrun, hc', hp'⟩ := ih r1 (c + 1) hc1 hp1
        refine ⟨r', ?_, ?_, hp'⟩
        · have hmin : (1 : Nat) + min m (limit - (c + 1)).toNat
              = min (m + 1) (limit - c).toNat := by omega
          simp [consumeRun, hstep, hrun, hmin]
        · rw [hc']
          exact congrArg some (by omega)
      · have hstep := consume_step_denied limit uid now period r c hc hlt
        obtain ⟨r', hrun, hc', hp'⟩ := ih r c hc hp
        refine ⟨r', ?_, ?_, hp'⟩
        · simp [consumeRun, hstep, hrun]
          omega
        · rw [hc']
          exact congrArg some (by omega)

lemma evalConsume_limit (limit : Int) (uid : Option String)
    (prof : Option UserRecord) (now period : String)
    (u1 : Option UsageRecord) (users : List UserRecord) :
    (evalConsume limit uid prof now period u1 users).1.limit = some limit := by
  unfold evalConsume
  cases h : (consume_message_if_allowed limit uid now period u1).1 <;> simp [h]

/-- C1: the consume step is the single conditional increment guarded by
(counter < L and periodKey = current period), so across any number M of
consume attempts against the same usage row in one period the counter
never exceeds the effective limit, and with remaining quota
K = (L - c).toNat and M ≥ K attempts, exactly K succeed. -/
theorem consume_conditional_increment_exact (limit : Int) (uid : Option String)
    (now period : String) (M : Nat) (r : UsageRecord) (c : Nat)
    (hc : r.plan_messages_sent = some c) (hp : r.periodKey = some period)
    (hcap : (c : Int) ≤ limit) :
    ((consumeRun limit uid now period M (some r)).2.bind
        (fun x => x.plan_messages_sent)) =
      some (c + min M (limit - c).toNat) ∧
    ((c + min M (limit - c).toNat : Nat) : Int) ≤ limit ∧
    (consumeRun limit uid now period M (some r)).1 =
      min M (limit - c).toNat ∧
    ((limit - c).toNat ≤ M →
      (consumeRun limit uid now period M (some r)).1 = (limit - c).toNat) := by
  obtain ⟨r', hrun, hc', hp'⟩ := consumeRun_spec limit uid now period M r c hc hp
  refine ⟨?_, by omega, ?_, ?_⟩
  · rw [hrun]
    simpa using hc'
  · rw [hrun]
  · intro hM
    rw [hrun]
    show min M (limit - (c : Int)).toNat = (limit - (c : Int)).toNat
    omega

/-- Witness for C1: limit 5, counter at 2, seven attempts; exactly three
succeed and the counter ends at the cap. -/
theorem consume_conditional_increment_exact_witness :
    ((consumeRun 5 none "2025-03-01" "2025-03" 7
        (some (usageAt "2025-03" 2 0))).2.bind
        (fun x => x.plan_messages_sent)) =
      some (2 + min 7 ((5 : Int) - (2 : Nat)).toNat) ∧
    ((2 + min 7 ((5 : Int) - (2 : Nat)).toNat : Nat) : Int) ≤ 5 ∧
    (consumeRun 5 none "2025-03-01" "2025-03" 7
        (some (usageAt "2025-03" 2 0))).1 = min 7 ((5 : Int) - (2 : Nat)).toNat ∧
    (((5 : Int) - (2 : Nat)).toNat ≤ 7 →
      (consumeRun 5 none "2025-03-01" "2025-03" 7
          (some (usageAt "2025-03" 2 0))).1 = ((5 : Int) - (2 : Nat)).toNat) :=
  consume_conditional_increment_exact 5 none "2025-03-01" "2025-03" 7
    (usageAt "2025-03" 2 0) 2 rfl rfl (by decide)

/-- C2: when the resolved profile is subscribed (whatever its cap), or
carries the -1 unlimited cap while unsubscribed, evaluation allows with
no limit, returns the usage row exactly as read, and leaves the store in
the state produced by the read alone — the conditional-increment path is
never taken and the counter is not incremented. -/
theorem evaluate_usage_unlimited_no_consume (now period : String)
    (st : SmsState) (p : UserRecord)
    (hp : resolve_user_profile st.users
            (get_sms_usage none now period st.usage).1 = some p)
    (hcase : truthy p.isSubscribed = true ∨
      (truthy p.isSubscribed = false ∧ p.plan_monthly_cap = some (-1))) :
    (evaluate_usage now period st).1.allowed = true ∧
    (evaluate_usage now period st).1.limit = none ∧
    (evaluate_usage now period st).2.users = st.users ∧
    (evaluate_usage now period st).2.usage =
      (get_sms_usage none now period st.usage).2 ∧
    (evaluate_usage now period st).1.usage =
      (get_sms_usage none now period st.usage).1 := by
  rcases hcase with hsub | ⟨hnsub, hcap⟩
  · simp [evaluate_usage, hp, hsub]
  · simp [evaluate_usage, hp, hnsub, hcap]

/-- Witness for C2: a subscribed profile linked from the usage row. -/
theorem evaluate_usage_unlimited_no_consume_witness :
    (evaluate_usage "t" "2025-03"
      ⟨some { usageAt "2025-03" 3 0 with userId := some "u1" },
       [{ baseUser with isSubscribed := some true }]⟩).1.allowed = true ∧
    (evaluate_usage "t" "2025-03"
      ⟨some { usageAt "2025-03" 3 0 with userId := some "u1" },
       [{ baseUser with isSubscribed := some true }]⟩).1.limit = none ∧
    (evaluate_usage "t" "2025-03"
      ⟨some { usageAt "2025-03" 3 0 with userId := some "u1" },
       [{ baseUser with isSubscribed := some true }]⟩).2.users =
      [{ baseUser with isSubscribed := some true }] ∧
    (evaluate_usage "t" "2025-03"
      ⟨some { usageAt "2025-03" 3 0 with userId := some "u1" },
       [{ baseUser with isSubscribed := some true }]⟩).2.usage =
      (get_sms_usage none "t" "2025-03"
        (some { usageAt "2025-03" 3 0 with userId := some "u1" })).2 ∧
    (evaluate_usage "t" "2025-03"
      ⟨some { usageAt "2025-03" 3 0 with userId := some "u1" },
       [{ baseUser with isSubscribed := some true }]⟩).1.usage =
      (get_sms_usage none "t" "2025-03"
        (some { usageAt "2025-03" 3 0 with userId := some "u1" })).1 :=
  evaluate_usage_unlimited_no_consume "t" "2025-03"
    ⟨some { usageAt "2025-03" 3 0 with userId := some "u1" },
     [{ baseUser with isSubscribed := some true }]⟩
    { baseUser with isSubscribed := some true }
    (by decide) (Or.inl rfl)

/-- C3 counterexample: a profile whose `plan_monthly_cap` is present and
negative but not -1 (here -2) is passed through as the effective limit;
the decision reports limit -2, not the default free limit 5 that the
claim requires. -/
theorem effective_limit_negative_cap_counterexample :
    (evaluate_usage "t" "2025-03"
      ⟨some { usageAt "2025-03" 0 0 with userId := some "u1" },
       [{ baseUser with plan_monthly_cap := some (-2) }]⟩).1.limit
        = some (-2) ∧
    ¬ (evaluate_usage "t" "2025-03"
      ⟨some { usageAt "2025-03" 0 0 with userId := some "u1" },
       [{ baseUser with plan_monthly_cap := some (-2) }]⟩).1.limit
        = some FREE_MONTHLY_LIMIT := by
  decide

/-- C3 as amended: outside the unlimited path the effective limit is
`plan_monthly_cap` whenever that field is present (negative values other
than -1 included), and the system default free limit 5 only when the
field is absent or no profile resolves. -/
theorem effective_limit_from_cap (now period : String) (st : SmsState) :
    (∀ p l, resolve_user_profile st.users
        (get_sms_usage none now period st.usage).1 = some p →
      truthy p.isSubscribed = false → p.plan_monthly_cap = some l → l ≠ -1 →
      (evaluate_usage now period st).1.limit = some l) ∧
    (∀ p, resolve_user_profile st.users
        (get_sms_usage none now period st.usage).1 = some p →
      truthy p.isSubscribed = false → p.plan_monthly_cap = none →
      (evaluate_usage now period st).1.limit = some FREE_MONTHLY_LIMIT) ∧
    (resolve_user_profile st.users
        (get_sms_usage none now period st.usage).1 = none →
      (evaluate_usage now period st).1.limit = some FREE_MONTHLY_LIMIT) := by
  refine ⟨?_, ?_, ?_⟩
  · intro p l hp hns hcap hne
    simp [evaluate_usage, hp, hns, hcap, hne, evalConsume_limit]
  · intro p hp hns hcap
    simp [evaluate_usage, hp, hns, hcap, evalConsume_limit]
  · intro hp
    simp [evaluate_usage, hp, evalConsume_limit]

/-- Witness for the amended C3: a present cap of 7 becomes the limit. -/
theorem effective_limit_from_cap_witness :
    (evaluate_usage "t" "2025-03"
      ⟨some { usageAt "2025-03" 0 0 with userId := some "u1" },
       [{ baseUser with plan_monthly_cap := some 7 }]⟩).1.limit = some 7 :=
  (effective_limit_from_cap "t" "2025-03"
    ⟨some { usageAt "2025-03" 0 0 with userId := some "u1" },
     [{ baseUser with plan_monthly_cap := some 7 }]⟩).1
    { baseUser with plan_monthly_cap := some 7 } 7
    (by decide) rfl rfl (by decide)

/-- C6: a usage row whose stored period differs from the current period
is reset — both counters zeroed and `periodKey` advanced — before any
evaluation, and the stored state is the returned row; in the spec's
example, a row at period 2025-01 with 5 messages receiving a request in
2025-02 is evaluated against the fresh count and allowed. -/
theorem period_rollover_resets (uid : Option String) (now period : String)
    (r : UsageRecord) (hstale : ¬ r.periodKey = some period) :
    ((get_sms_usage uid now period (some r)).1.plan_messages_sent = some 0 ∧
     (get_sms_usage uid now period (some r)).1.nudges_sent = some 0 ∧
     (get_sms_usage uid now period (some r)).1.periodKey = some period ∧
     (get_sms_usage uid now period (some r)).2 =
       some (get_sms_usage uid now period (some r)).1) ∧
    ((evaluate_usage "t" "2025-02"
        ⟨some (usageAt "2025-01" 5 0), []⟩).1.allowed = true ∧
     (evaluate_usage "t" "2025-02"
        ⟨some (usageAt "2025-01" 5 0), []⟩).1.reason = "within_cap" ∧
     (evaluate_usage "t" "2025-02"
        ⟨some (usageAt "2025-01" 5 0), []⟩).1.usage.plan_messages_sent
       = some 1) := by
  have hb : (r.periodKey == some period) = false := beq_eq_false_iff_ne.mpr hstale
  constructor
  · cases uid with
    | none => simp [get_sms_usage, reset_sms_usage_period, hb]
    | some u =>
        cases huid : r.userId with
        | none =>
            simp [get_sms_usage, reset_sms_usage_period,
              ensure_sms_usage_record, applyUserIdIfAbsent, hb, huid]
        | some x =>
            simp [get_sms_usage, reset_sms_usage_period,
              ensure_sms_usage_record, applyUserIdIfAbsent, hb, huid]
  · decide

/-- Witness for C6 at a stale January row rolled into February. -/
theorem period_rollover_resets_witness :
    ((get_sms_usage none "t" "2025-02"
        (some (usageAt "2025-01" 5 1))).1.plan_messages_sent = some 0 ∧
     (get_sms_usage none "t" "2025-02"
        (some (usageAt "2025-01" 5 1))).1.nudges_sent = some 0 ∧
     (get_sms_usage none "t" "2025-02"
        (some (usageAt "2025-01" 5 1))).1.periodKey = some "2025-02" ∧
     (get_sms_usage none "t" "2025-02"
        (some (usageAt "2025-01" 5 1))).2 =
       some (get_sms_usage none "t" "2025-02"
        (some (usageAt "2025-01" 5 1))).1) ∧
    ((evaluate_usage "t" "2025-02"
        ⟨some (usageAt "2025-01" 5 0), []⟩).1.allowed = true ∧
     (evaluate_usage "t" "2025-02"
        ⟨some (usageAt "2025-01" 5 0), []⟩).1.reason = "within_cap" ∧
     (evaluate_usage "t" "2025-02"
        ⟨some (usageAt "2025-01" 5 0), []⟩).1.usage.plan_messages_sent
       = some 1) :=
  period_rollover_resets none "t" "2025-02" (usageAt "2025-01" 5 1) (by decide)

/-- C4: applying the same subscription_updated or subscription_deleted
write twice (same event snapshot, same wall clock) to an entitlement
record yields the same record as applying it once, because each write is
a full-field overwrite computed from the snapshot, never a delta. -/
theorem subscription_event_overwrite_idempotent (sub : SubscriptionSnapshot)
    (now : String) (u : UserRecord) :
    apply_subscription_updated sub now (apply_subscription_updated sub now u)
      = apply_subscription_updated sub now u ∧
    apply_subscription_deleted now (apply_subscription_deleted now u)
      = apply_subscription_deleted now u := by
  constructor
  · unfold apply_subscription_updated
    cases hpe : sub.current_period_end with
    | none => rfl
    | some pe =>
        by_cases h0 : pe = 0 <;> simp [h0]
  · rfl

/-- C5: the subscription_deleted write reverts every entitlement to the
opted-in free tier and removes `currentPeriodEnd` entirely. -/
theorem subscription_deleted_clears_period_end (now : String) (u : UserRecord) :
    (apply_subscription_deleted now u).isSubscribed = some false ∧
    (apply_subscription_deleted now u).plan = some "free" ∧
    (apply_subscription_deleted now u).plan_monthly_cap = some 5 ∧
    (apply_subscription_deleted now u).subscriptionStatus = some "canceled" ∧
    (apply_subscription_deleted now u).cancelAtPeriodEnd = some false ∧
    (apply_subscription_deleted now u).currentPeriodEnd = none :=
  ⟨rfl, rfl, rfl, rfl, rfl, rfl⟩

/-- C7: a payment_failed event whose re-fetched live status is past_due
keeps the user subscribed with the unlimited sentinel; any other live
status reverts to the free tier values. -/
theorem payment_failed_grace_period (live now : String) (u : UserRecord) :
    (live = "past_due" →
      (apply_payment_failed live now u).isSubscribed = some true ∧
      (apply_payment_failed live now u).plan_monthly_cap = some (-1)) ∧
    (live ≠ "past_due" →
      (apply_payment_failed live now u).isSubscribed = some false ∧
      (apply_payment_failed live now u).plan_monthly_cap = some 5) := by
  constructor
  · intro h
    subst h
    exact ⟨rfl, rfl⟩
  · intro h
    have hb : (live == "past_due") = false := beq_eq_false_iff_ne.mpr h
    simp [apply_payment_failed, hb]

/-- Witness for C7 at live statuses past_due and unpaid. -/
theorem payment_failed_grace_period_witness :
    ((apply_payment_failed "past_due" "t" baseUser).isSubscribed = some true ∧
     (apply_payment_failed "past_due" "t" baseUser).plan_monthly_cap = some (-1)) ∧
    ((apply_payment_failed "unpaid" "t" baseUser).isSubscribed = some false ∧
     (apply_payment_failed "unpaid" "t" baseUser).plan_monthly_cap = some 5) :=
  ⟨(payment_failed_grace_period "past_due" "t" baseUser).1 rfl,
   (payment_failed_grace_period "unpaid" "t" baseUser).2 (by decide)⟩

/-- C8 counterexample: a callback with a price and a message UUID that
matches no ledger entry is answered with status 500 — not acknowledged
with a success status as the claim says (the ledger is indeed left
untouched). -/
theorem cost_callback_lookup_miss_counterexample :
    (twilio_callback_handler "t"
      ⟨some "SM1", some "delivered", some "0.01", some "USD",
        some "1", some "uuid-1"⟩ []).1 = 500 ∧
    ¬ (twilio_callback_handler "t"
      ⟨some "SM1", some "delivered", some "0.01", some "USD",
        some "1", some "uuid-1"⟩ []).1 = 200 ∧
    (twilio_callback_handler "t"
      ⟨some "SM1", some "delivered", some "0.01", some "USD",
        some "1", some "uuid-1"⟩ []).2 = [] := by
  decide

/-- C8 as amended: on a delivery-cost callback carrying a parseable price
and a message UUID for which the secondary messageId lookup finds no
ledger entry, the handler answers with error status 500 (so the gateway
will retry) and modifies no ledger state; only callbacks lacking the UUID
entirely are acknowledged with success. -/
theorem cost_callback_lookup_miss_500 (now : String)
    (p : TwilioCallbackParams) (ledger : List LedgerEntry) (k : Int)
    (v : Int × Nat)
    (hseg : pyInt? (p.numSegments.getD "1") = some k)
    (hsid : pyTruthyStr p.messageSid = true)
    (hp1 : p.price ≠ none) (hp2 : p.price ≠ some "")
    (hval : pyFloat? (p.price.getD "") = some v)
    (huuid : pyTruthyStr p.messageUuid = true)
    (hmiss : ledger.find?
      (fun m => m.messageId == p.messageUuid.getD "") = none) :
    twilio_callback_handler now p ledger = (500, ledger) := by
  have hb1 : (p.price == none) = false := beq_eq_false_iff_ne.mpr hp1
  have hb2 : (p.price == some "") = false := beq_eq_false_iff_ne.mpr hp2
  simp [twilio_callback_handler, hseg, hsid, hb1, hb2, hval, huuid,
    update_sms_cost, hmiss]

/-- Witness for the amended C8 at an empty ledger. -/
theorem cost_callback_lookup_miss_500_witness :
    twilio_callback_handler "t"
      ⟨some "SM2", some "delivered", some "2", some "USD",
        some "1", some "uuid-2"⟩ [] = (500, []) :=
  cost_callback_lookup_miss_500 "t"
    ⟨some "SM2", some "delivered", some "2", some "USD",
      some "1", some "uuid-2"⟩ [] 1 (2, 0)
    (by decide) rfl (by decide) (by decide) (by decide) rfl rfl

/-- C9: on a denied evaluation the nudge is sent iff the nudge counter is
below NUDGE_LIMIT, and then the counter is incremented by one; once at
the limit nothing is sent.  In the spec scenario a fresh identity under
the free cap of 5 sends six messages in one period: messages 1-5 are
allowed and answered by the responder, message 6 is denied with reason
quota_exceeded, exactly one nudge is sent (count goes 0 to 1), and no
responder call is made for message 6. -/
theorem nudge_iff_below_limit_and_six_message_scenario :
    (∀ (now period : String) (d : Decision) (st1 : SmsState)
        (eff0 : List Effect),
      (d.usage.nudges_sent.getD 0 < NUDGE_LIMIT →
        handle_denied now period d st1 eff0 =
          ⟨200, ⟨increment_nudge now st1.usage, st1.users⟩,
            eff0 ++ [Effect.smsQuotaExhausted
              (d.usage.periodKey.getD period) (pyOrLimit d.limit)]⟩) ∧
      (¬ d.usage.nudges_sent.getD 0 < NUDGE_LIMIT →
        handle_denied now period d st1 eff0 = ⟨200, st1, eff0⟩)) ∧
    ((run_messages "+15551230000" "uuid" "2025-03-01" "2025-03" true
        ["hi", "hi", "hi", "hi", "hi", "hi"] ⟨none, []⟩).1.map
          (fun o => o.statusCode) = [200, 200, 200, 200, 200, 200] ∧
     (run_messages "+15551230000" "uuid" "2025-03-01" "2025-03" true
        ["hi", "hi", "hi", "hi", "hi", "hi"] ⟨none, []⟩).1.map
          (fun o => o.effects) =
       [[Effect.smsFirstTimeWelcome, Effect.invokeChat "hi",
          Effect.smsChatReply],
        [Effect.invokeChat "hi", Effect.smsChatReply],
        [Effect.invokeChat "hi", Effect.smsChatReply],
        [Effect.invokeChat "hi", Effect.smsChatReply],
        [Effect.invokeChat "hi", Effect.smsChatReply],
        [Effect.smsQuotaExhausted "2025-03" 5]] ∧
     (evaluate_usage "2025-03-01" "2025-03"
        (run_messages "+15551230000" "uuid" "2025-03-01" "2025-03" true
          ["hi", "hi", "hi", "hi", "hi"] ⟨none, []⟩).2).1.allowed = false ∧
     (evaluate_usage "2025-03-01" "2025-03"
        (run_messages "+15551230000" "uuid" "2025-03-01" "2025-03" true
          ["hi", "hi", "hi", "hi", "hi"] ⟨none, []⟩).2).1.reason
        = "quota_exceeded" ∧
     (run_messages "+15551230000" "uuid" "2025-03-01" "2025-03" true
        ["hi", "hi", "hi", "hi", "hi"] ⟨none, []⟩).2.usage =
       some ⟨some "2025-03", some 5, some 0, none, some "uuid",
         some "2025-03-01", some "2025-03-01", some "2025-03-01"⟩ ∧
     (run_messages "+15551230000" "uuid" "2025-03-01" "2025-03" true
        ["hi", "hi", "hi", "hi", "hi", "hi"] ⟨none, []⟩).2.usage =
       some ⟨some "2025-03", some 5, some 1, none, some "uuid",
         some "2025-03-01", some "2025-03-01", some "2025-03-01"⟩) := by
  constructor
  · intro now period d st1 eff0
    constructor
    · intro h
      simp [handle_denied, should_nudge, h]
    · intro h
      simp [handle_denied, should_nudge, h]
  · decide

/-- Witness for C9: a denial with the nudge counter at zero sends the
nudge and increments the counter. -/
theorem nudge_iff_below_limit_witness :
    handle_denied "t" "2025-03"
      ⟨false, some 5, usageAt "2025-03" 5 0, none, "quota_exceeded"⟩
      ⟨some (usageAt "2025-03" 5 0), []⟩ [] =
    ⟨200, ⟨increment_nudge "t" (some (usageAt "2025-03" 5 0)), []⟩,
      [Effect.smsQuotaExhausted "2025-03" 5]⟩ :=
  (nudge_iff_below_limit_and_six_message_scenario.1 "t" "2025-03"
    ⟨false, some 5, usageAt "2025-03" 5 0, none, "quota_exceeded"⟩
    ⟨some (usageAt "2025-03" 5 0), []⟩ []).1 (by decide)

lemma handle_stop_keyword_effects (phone now : String)
    (users : List UserRecord) :
    (∀ m, Effect.invokeChat m ∉ (handle_stop_keyword phone now users).2) ∧
    (∀ pk l, Effect.smsQuotaExhausted pk l ∉
      (handle_stop_keyword phone now users).2) := by
  unfold handle_stop_keyword
  cases h : scan_user_by_phone users phone with
  | none => simp
  | some user =>
      by_cases hs : truthy user.isSubscribed && pyTruthyStr user.stripeSubscriptionId <;>
        by_cases h2 : truthy user.isSubscribed <;>
          simp [hs, h2]

lemma handle_start_keyword_effects (phone now : String)
    (users : List UserRecord) :
    (∀ m, Effect.invokeChat m ∉ (handle_start_keyword phone now users).2) ∧
    (∀ pk l, Effect.smsQuotaExhausted pk l ∉
      (handle_start_keyword phone now users).2) := by
  unfold handle_start_keyword
  cases h : scan_user_by_phone users phone with
  | none => simp
  | some user => simp

/-- C10: a keyword-command body (STOP/STOPALL/UNSUBSCRIBE/CANCEL/END/QUIT,
START/UNSTOP, HELP/INFO after trim, case-insensitively) or an opted-out
sender gets a success response with the usage row untouched: no counter
increment, no quota-exhausted nudge, no responder invocation. -/
theorem keyword_or_optout_bypasses_quota (phone body uuid now period : String)
    (chatOk : Bool) (st : SmsState)
    (h : (is_keyword_command body).isSome = true ∨
      ∃ u, scan_user_by_phone st.users phone = some u ∧
        truthy u.optedOut = true) :
    (sms_handler phone body uuid now period chatOk st).statusCode = 200 ∧
    (sms_handler phone body uuid now period chatOk st).state.usage
      = st.usage ∧
    (∀ m, Effect.invokeChat m ∉
      (sms_handler phone body uuid now period chatOk st).effects) ∧
    (∀ pk l, Effect.smsQuotaExhausted pk l ∉
      (sms_handler phone body uuid now period chatOk st).effects) := by
  cases hkw : is_keyword_command body with
  | some kw =>
      cases kw with
      | stop =>
          have hfx := handle_stop_keyword_effects phone now st.users
          refine ⟨?_, ?_, fun m => ?_, fun pk l => ?_⟩
          · simp [sms_handler, hkw]
          · simp [sms_handler, hkw]
          · simpa [sms_handler, hkw] using hfx.1 m
          · simpa [sms_handler, hkw] using hfx.2 pk l
      | start =>
          have hfx := handle_start_keyword_effects phone now st.users
          refine ⟨?_, ?_, fun m => ?_, fun pk l => ?_⟩
          · simp [sms_handler, hkw]
          · simp [sms_handler, hkw]
          · simpa [sms_handler, hkw] using hfx.1 m
          · simpa [sms_handler, hkw] using hfx.2 pk l
      | help =>
          refine ⟨?_, ?_, fun m => ?_, fun pk l => ?_⟩ <;>
            simp [sms_handler, hkw]
  | none =>
      rcases h with hleft | ⟨u, hu, hopt⟩
      · rw [hkw] at hleft
        simp at hleft
      · refine ⟨?_, ?_, fun m => ?_, fun pk l => ?_⟩ <;>
          simp [sms_handler, hkw, hu, hopt]

/-- Witness for C10: a STOP body from an unknown sender. -/
theorem keyword_or_optout_bypasses_quota_witness :
    (sms_handler "+15551230001" "STOP" "uuid" "t" "2025-03" true
      ⟨none, []⟩).statusCode = 200 ∧
    (sms_handler "+15551230001" "STOP" "uuid" "t" "2025-03" true
      ⟨none, []⟩).state.usage = none ∧
    Effect.invokeChat "STOP" ∉
      (sms_handler "+15551230001" "STOP" "uuid" "t" "2025-03" true
        ⟨none, []⟩).effects ∧
    Effect.smsQuotaExhausted "2025-03" 5 ∉
      (sms_handler "+15551230001" "STOP" "uuid" "t" "2025-03" true
        ⟨none, []⟩).effects :=
  ⟨(keyword_or_optout_bypasses_quota "+15551230001" "STOP" "uuid" "t"
      "2025-03" true ⟨none, []⟩ (Or.inl (by decide))).1,
   (keyword_or_optout_bypasses_quota "+15551230001" "STOP" "uuid" "t"
      "2025-03" true ⟨none, []⟩ (Or.inl (by decide))).2.1,
   (keyword_or_optout_bypasses_quota "+15551230001" "STOP" "uuid" "t"
      "2025-03" true ⟨none, []⟩ (Or.inl (by decide))).2.2.1 "STOP",
   (keyword_or_optout_bypasses_quota "+15551230001" "STOP" "uuid" "t"
      "2025-03" true ⟨none, []⟩ (Or.inl (by decide))).2.2.2 "2025-03" 5⟩

end Versiful
